import Mathlib

/-!
Verification of the Bitget exchange connector (`bitget_auth.py`,
`bitget_exchange.py`, `bitget_constants.py`) against its natural-language
specification.  The Python source is shallowly embedded: pure helpers become
Lean functions, stateful methods become explicit state-passing functions,
Python `Decimal` amounts become `ℚ`, Python dictionaries become association
lists, and fallible code returns `Option`/`Except`.  The cryptographic
primitives used by the signer (`hashlib.sha256`, `hmac`, `base64.b64encode`)
are embedded as executable reference implementations over byte lists so that
concrete signatures can be computed inside Lean.
-/

set_option maxRecDepth 10000
set_option linter.unusedVariables false

namespace Crypto

/-- `2^32`, the modulus for 32-bit words (words are `Nat`s below `M32`). -/
def M32 : Nat := 4294967296

/-- 32-bit addition. -/
def add32 (a b : Nat) : Nat := (a + b) % M32

/-- 32-bit right rotation by `n` (for `a < 2^32`, `0 < n < 32`). -/
def rotr (n a : Nat) : Nat := ((a >>> n) ||| (a <<< (32 - n))) % M32

/-- Bitwise complement on 32-bit words. -/
def not32 (a : Nat) : Nat := a ^^^ 4294967295

/-- SHA-256 `Ch(e,f,g) = (e ∧ f) ⊕ (¬e ∧ g)`. -/
def ch (e f g : Nat) : Nat := (e &&& f) ^^^ (not32 e &&& g)

/-- SHA-256 `Maj(a,b,c)`. -/
def maj (a b c : Nat) : Nat := (a &&& b) ^^^ (a &&& c) ^^^ (b &&& c)

/-- SHA-256 `Σ₀`. -/
def bigSigma0 (x : Nat) : Nat := rotr 2 x ^^^ rotr 13 x ^^^ rotr 22 x

/-- SHA-256 `Σ₁`. -/
def bigSigma1 (x : Nat) : Nat := rotr 6 x ^^^ rotr 11 x ^^^ rotr 25 x

/-- SHA-256 `σ₀`. -/
def smallSigma0 (x : Nat) : Nat := rotr 7 x ^^^ rotr 18 x ^^^ (x >>> 3)

/-- SHA-256 `σ₁`. -/
def smallSigma1 (x : Nat) : Nat := rotr 17 x ^^^ rotr 19 x ^^^ (x >>> 10)

/-- The 64 SHA-256 round constants (FIPS 180-4, written in decimal). -/
def K : List Nat :=
  [1116352408, 1899447441, 3049323471, 3921009573, 961987163,
   1508970993, 2453635748, 2870763221, 3624381080, 310598401,
   607225278, 1426881987, 1925078388, 2162078206, 2614888103,
   3248222580, 3835390401, 4022224774, 264347078, 604807628,
   770255983, 1249150122, 1555081692, 1996064986, 2554220882,
   2821834349, 2952996808, 3210313671, 3336571891, 3584528711,
   113926993, 338241895, 666307205, 773529912, 1294757372,
   1396182291, 1695183700, 1986661051, 2177026350, 2456956037,
   2730485921, 2820302411, 3259730800, 3345764771, 3516065817,
   3600352804, 4094571909, 275423344, 430227734, 506948616,
   659060556, 883997877, 958139571, 1322822218, 1537002063,
   1747873779, 1955562222, 2024104815, 2227730452, 2361852424,
   2428436474, 2756734187, 3204031479, 3329325298]

/-- The SHA-256 initial hash value (FIPS 180-4, written in decimal). -/
def H0 : List Nat :=
  [1779033703, 3144134277, 1013904242, 2773480762, 1359893119,
   2600822924, 528734635, 1541459225]

/-- Iterate a function `n` times. -/
def iterate {α : Type} (f : α → α) : Nat → α → α
  | 0, a => a
  | n + 1, a => iterate f n (f a)

/-- One message-schedule extension step.  `acc` holds the schedule words built
so far, newest first; the step prepends `σ₁(w[t-2]) + w[t-7] + σ₀(w[t-15]) + w[t-16]`. -/
def scheduleStep (acc : List Nat) : List Nat :=
  let g (k : Nat) : Nat := acc.getD (k - 1) 0
  add32 (add32 (smallSigma1 (g 2)) (g 7)) (add32 (smallSigma0 (g 15)) (g 16)) :: acc

/-- The 64-word message schedule from the 16 words of one block. -/
def schedule (ws : List Nat) : List Nat :=
  (iterate scheduleStep 48 ws.reverse).reverse

/-- One SHA-256 round: transforms the working variables `[a,b,c,d,e,f,g,h]`
with one round constant and one schedule word. -/
def round (st : List Nat) (kw : Nat × Nat) : List Nat :=
  match st with
  | [a, b, c, d, e, f, g, h] =>
    let t1 := add32 h (add32 (bigSigma1 e) (add32 (ch e f g) (add32 kw.1 kw.2)))
    let t2 := add32 (bigSigma0 a) (maj a b c)
    [add32 t1 t2, a, b, c, add32 d t1, e, f, g]
  | other => other

/-- SHA-256 compression of one block (given as its 16 big-endian words) into
the running hash state. -/
def compress (h : List Nat) (block : List Nat) : List Nat :=
  let st := ((K.zip (schedule block)).foldl round h)
  (h.zip st).map fun p => add32 p.1 p.2

/-- Big-endian 32-bit word from four bytes. -/
def wordOfBytes (bs : List Nat) : Nat :=
  bs.foldl (fun acc b => acc * 256 + b) 0

/-- The four big-endian bytes of a 32-bit word. -/
def bytesOfWord (w : Nat) : List Nat :=
  [(w >>> 24) &&& 255, (w >>> 16) &&& 255, (w >>> 8) &&& 255, w &&& 255]

/-- The eight big-endian bytes of a 64-bit length field. -/
def be64 (n : Nat) : List Nat :=
  [(n >>> 56) &&& 255, (n >>> 48) &&& 255, (n >>> 40) &&& 255, (n >>> 32) &&& 255,
   (n >>> 24) &&& 255, (n >>> 16) &&& 255, (n >>> 8) &&& 255, n &&& 255]

/-- Split a list into chunks of `k`, structurally recursing on a fuel bound
(the list's length, which the chunk count never exceeds for `1 ≤ k`). -/
def chunksFuel (k : Nat) : Nat → List Nat → List (List Nat)
  | 0, _ => []
  | _, [] => []
  | fuel + 1, l => l.take k :: chunksFuel k fuel (l.drop k)

/-- Split a list into chunks of `k`. -/
def chunks (k : Nat) (l : List Nat) : List (List Nat) := chunksFuel k l.length l

/-- SHA-256 padding: append `0x80`, zeros to a 56 mod 64 boundary, and the
bit length as a 64-bit big-endian integer. -/
def pad (msg : List Nat) : List Nat :=
  let L := msg.length
  let zeros := (64 - ((L + 9) % 64)) % 64
  msg ++ 0x80 :: List.replicate zeros 0 ++ be64 (8 * L)

/-- SHA-256 of a byte list, as the 32 digest bytes (embeds `hashlib.sha256`). -/
def sha256 (msg : List Nat) : List Nat :=
  let blocks := (chunks 64 (pad msg)).map fun b => (chunks 4 b).map wordOfBytes
  (blocks.foldl compress H0).foldr (fun w acc => bytesOfWord w ++ acc) []

/-- HMAC-SHA256 (embeds Python's `hmac.new(key, msg, hashlib.sha256).digest()`). -/
def hmacSha256 (key msg : List Nat) : List Nat :=
  let k0 := if 64 < key.length then sha256 key else key
  let k1 := k0 ++ List.replicate (64 - k0.length) 0
  let ip := k1.map fun b => b ^^^ 0x36
  let op := k1.map fun b => b ^^^ 0x5c
  sha256 (op ++ sha256 (ip ++ msg))

/-- The base64 alphabet. -/
def b64Chars : List Char :=
  "ABCDEFGHIJKLMNOPQRSTUVWXYZabcdefghijklmnopqrstuvwxyz0123456789+/".toList

/-- The base64 character for a 6-bit group. -/
def b64Char (n : Nat) : Char := b64Chars.getD n 'A'

/-- Base64 encoding of a byte list, with `=` padding (embeds
`base64.b64encode`). -/
def b64Encode : List Nat → List Char
  | [] => []
  | [b0] => [b64Char (b0 >>> 2), b64Char ((b0 &&& 3) <<< 4), '=', '=']
  | [b0, b1] =>
    [b64Char (b0 >>> 2), b64Char (((b0 &&& 3) <<< 4) ||| (b1 >>> 4)),
     b64Char ((b1 &&& 15) <<< 2), '=']
  | b0 :: b1 :: b2 :: rest =>
    b64Char (b0 >>> 2) :: b64Char (((b0 &&& 3) <<< 4) ||| (b1 >>> 4)) ::
    b64Char (((b1 &&& 15) <<< 2) ||| (b2 >>> 6)) :: b64Char (b2 &&& 63) :: b64Encode rest

/-- UTF-8 encoding of one character, as byte values (embeds `str.encode()`
per character). -/
def utf8Char (c : Char) : List Nat :=
  let n := c.toNat
  if n < 0x80 then [n]
  else if n < 0x800 then [0xC0 ||| (n >>> 6), 0x80 ||| (n &&& 0x3F)]
  else if n < 0x10000 then
    [0xE0 ||| (n >>> 12), 0x80 ||| ((n >>> 6) &&& 0x3F), 0x80 ||| (n &&& 0x3F)]
  else
    [0xF0 ||| (n >>> 18), 0x80 ||| ((n >>> 12) &&& 0x3F),
     0x80 ||| ((n >>> 6) &&& 0x3F), 0x80 ||| (n &&& 0x3F)]

/-- UTF-8 bytes of a string (embeds Python's `str.encode()`). -/
def strBytes (s : String) : List Nat := s.data.flatMap utf8Char

/-- base64(HMAC-SHA256(key, msg)) over strings, decoded back to a string —
the composite the Bitget signer applies. -/
def b64HmacSha256 (key msg : String) : String :=
  ⟨b64Encode (hmacSha256 (strBytes key) (strBytes msg))⟩

end Crypto

namespace Bitget

/-- Python's `str.upper()` for the ASCII strings the connector handles
(uppercases each character). -/
def pyUpper (s : String) : String := ⟨s.data.map Char.toUpper⟩

/-- A hexadecimal digit character (uppercase, as `urllib.parse.quote` emits). -/
def hexDigit (n : Nat) : Char := "0123456789ABCDEF".toList.getD n '0'

/-- Percent-encoding of one byte, `%XX`. -/
def percentByte (b : Nat) : List Char := ['%', hexDigit (b >>> 4), hexDigit (b &&& 15)]

/-- `urllib.parse.quote_plus` on one character: ASCII alphanumerics and
`_.-~` pass through, space becomes `+`, anything else is percent-encoded
byte by byte. -/
def quotePlusChar (c : Char) : List Char :=
  if c.isAlphanum || c = '_' || c = '.' || c = '-' || c = '~' then [c]
  else if c = ' ' then ['+']
  else (Crypto.utf8Char c).flatMap percentByte

/-- `urllib.parse.quote_plus` on a string. -/
def quotePlus (s : String) : String := ⟨s.data.flatMap quotePlusChar⟩

/-- `urllib.parse.urlencode` on a parameter mapping (a Python `dict`,
embedded as an association list in insertion order). -/
def urlencode (params : List (String × String)) : String :=
  String.intercalate "&" (params.map fun p => quotePlus p.1 ++ "=" ++ quotePlus p.2)

/-- The REST methods of `RESTMethod` used by the connector. -/
inductive RESTMethod
  | GET
  | POST
  | PUT
  | DELETE
deriving DecidableEq

/-- `RESTMethod.value` — the method's name string. -/
def RESTMethod.value : RESTMethod → String
  | .GET => "GET"
  | .POST => "POST"
  | .PUT => "PUT"
  | .DELETE => "DELETE"

/-- The parts of a `RESTRequest` that `BitgetAuth.rest_authenticate` reads.
`data` is `none` for a Python `None` body, and `some s` for a body object
whose `str()` rendering is `s`. -/
structure RESTRequest where
  method : RESTMethod
  throttlerLimitId : String
  params : List (String × String)
  data : Option String

/-- Python `str(request.data)`: `None` renders as the string `"None"`. -/
def pyStrData : Option String → String
  | none => "None"
  | some s => s

/-- The two time sources visible to `BitgetAuth`:
`localWallClockMs` is `int(time.time() * 1000)` (the raw local wall clock,
in milliseconds) and `providerTime` is `int(self._time_provider.time())`
(the injected `TimeSynchronizer`, in seconds). -/
structure AuthClocks where
  localWallClockMs : Nat
  providerTime : Nat

/-- The credentials held by a `BitgetAuth` instance. -/
structure BitgetAuthState where
  apiKey : String
  secretKey : String
  passphrase : String

/-- `create_signature` (module-level helper in `bitget_auth.py`):
base64(HMAC-SHA256(secret, timestamp + method + path + body)), with no
case adjustment of the method. -/
def create_signature (timestamp method request_path secret_key body : String) : String :=
  Crypto.b64HmacSha256 secret_key (timestamp ++ method ++ request_path ++ body)

namespace BitgetAuth

/-- `BitgetAuth._pre_hash`: blanks a body equal to `"None"` or `"null"`,
then concatenates timestamp, uppercased method, path and body. -/
def _pre_hash (timestamp method request_path body : String) : String :=
  let body := if body = "None" ∨ body = "null" then "" else body
  timestamp ++ pyUpper method ++ request_path ++ body

/-- `BitgetAuth._sign`: base64(HMAC-SHA256(secret, message)). -/
def _sign (message secret_key : String) : String :=
  Crypto.b64HmacSha256 secret_key message

/-- The request path used for signing by `rest_authenticate`: the request's
throttler limit id, with `?` and the urlencoded params appended when the
method is GET and params are present. -/
def restCanonicalPath (request : RESTRequest) : String :=
  let path := request.throttlerLimitId
  if request.method = .GET ∧ request.params ≠ [] then
    path ++ "?" ++ urlencode request.params
  else path

/-- The string `rest_authenticate` passes to `_sign`:
`_pre_hash(ACCESS-TIMESTAMP, request.method.value, path, str(request.data))`,
where ACCESS-TIMESTAMP is `str(int(time.time() * 1000))`. -/
def restCanonicalString (clocks : AuthClocks) (request : RESTRequest) : String :=
  _pre_hash (toString clocks.localWallClockMs) request.method.value
    (restCanonicalPath request) (pyStrData request.data)

/-- The authentication headers `rest_authenticate` adds to a request. -/
structure AuthHeaders where
  contentType : String
  accessKey : String
  accessTimestamp : String
  accessPassphrase : String
  accessSign : String

/-- `BitgetAuth.rest_authenticate`: the headers it installs.  The
ACCESS-TIMESTAMP header is `str(int(time.time() * 1000))` — the raw local
wall clock — and ACCESS-SIGN signs the canonical string built from it. -/
def rest_authenticate (auth : BitgetAuthState) (clocks : AuthClocks)
    (request : RESTRequest) : AuthHeaders :=
  { contentType := "application/json"
    accessKey := auth.apiKey
    accessTimestamp := toString clocks.localWallClockMs
    accessPassphrase := auth.passphrase
    accessSign := _sign (restCanonicalString clocks request) auth.secretKey }

/-- One entry of the WS login frame produced by `get_ws_auth_payload`. -/
structure WsAuthEntry where
  apiKey : String
  passphrase : String
  timestamp : String
  sign : String

/-- `BitgetAuth.get_ws_auth_payload`: timestamp is
`str(int(self._time_provider.time()))` (the injected `TimeSynchronizer`),
and the signature signs `_pre_hash(timestamp, "GET", "/user/verify", "")`. -/
def get_ws_auth_payload (auth : BitgetAuthState) (clocks : AuthClocks) :
    List WsAuthEntry :=
  let timestamp := toString clocks.providerTime
  [{ apiKey := auth.apiKey
     passphrase := auth.passphrase
     timestamp := timestamp
     sign := _sign (_pre_hash timestamp "GET" "/user/verify" "") auth.secretKey }]

end BitgetAuth

/-- A Python `dict` with string keys, embedded as an association list in
insertion order with unique keys. -/
abbrev PyDict (α : Type) := List (String × α)

/-- Python `d.get(k)` / `k in d`: the value at a key, if present. -/
def PyDict.getValue? {α : Type} (d : PyDict α) (k : String) : Option α :=
  (d.find? fun p => p.1 == k).map (·.2)

/-- Python `d[k] = v`: replace in place when the key exists, else append. -/
def PyDict.setValue {α : Type} (d : PyDict α) (k : String) (v : α) : PyDict α :=
  if d.any (fun p => p.1 == k) then d.map fun p => if p.1 == k then (k, v) else p
  else d ++ [(k, v)]

/-- Python `del d[k]`: removes the key, or raises `KeyError` when absent. -/
def PyDict.delete {α : Type} (d : PyDict α) (k : String) : Except String (PyDict α) :=
  if d.any (fun p => p.1 == k) then .ok (d.filter fun p => !(p.1 == k))
  else .error ("KeyError: " ++ k)

/-- Python `str.replace(pat, repl)` on character lists: replace every
non-overlapping occurrence, scanning left to right (fuel-recursive on the
remaining length; an empty pattern is left unreplaced, a case the connector
never exercises). -/
def pyReplaceFuel (pat repl : List Char) : Nat → List Char → List Char
  | _, [] => []
  | 0, l => l
  | fuel + 1, c :: rest =>
    if pat ≠ [] ∧ pat.isPrefixOf (c :: rest) then
      repl ++ pyReplaceFuel pat repl fuel ((c :: rest).drop pat.length)
    else c :: pyReplaceFuel pat repl fuel rest

/-- Python `s.replace(pat, repl)`. -/
def pyReplace (s pat repl : String) : String :=
  ⟨pyReplaceFuel pat.data repl.data s.data.length s.data⟩

/-- Substring scan on character lists: does `pat` occur contiguously? -/
def containsSubstrList (pat : List Char) : List Char → Bool
  | [] => pat.isEmpty
  | c :: rest => pat.isPrefixOf (c :: rest) || containsSubstrList pat rest

/-- Python `needle in haystack` on strings: substring containment. -/
def containsSubstr (needle haystack : String) : Bool :=
  containsSubstrList needle.data haystack.data

/-- `format_symbol` (module level in `bitget_exchange.py`): strips the
`_SPBL` suffix marker when present. -/
def format_symbol (symbol : String) : String :=
  if containsSubstr "_SPBL" symbol then pyReplace symbol "_SPBL" ""
  else symbol

/-- A trade side (`TradeType`). -/
inductive TradeType
  | BUY
  | SELL
deriving DecidableEq

/-- A position action (`PositionAction`), used by the perpetual fee builder. -/
inductive PositionAction
  | OPEN
  | CLOSE
deriving DecidableEq

/-- A `TokenAmount` flat fee entry. -/
structure TokenAmountM where
  amount : ℚ
  token : String
deriving DecidableEq

/-- The fields of an `InFlightOrder` the embedded methods read.
`exchangeOrderId` is `none` while the venue has not yet acknowledged the
order. -/
structure InFlightOrderM where
  clientOrderId : String
  exchangeOrderId : Option String
  tradingPair : String
  tradeType : TradeType
deriving DecidableEq

/- ---------------------------------------------------------------------
`BitgetExchange._update_balances` (bitget_exchange.py lines 669-706).
--------------------------------------------------------------------- -/

/-- One entry of the balance response's `data` list; amounts are the `ℚ`
values of the `Decimal(...)` conversions the code applies. -/
structure BalanceEntry where
  coin : String
  available : ℚ
  locked : ℚ
deriving DecidableEq

/-- The two balance tables of the exchange object:
`_account_available_balances` and `_account_balances`. -/
structure AccountBalances where
  availableBalances : PyDict ℚ
  totalBalances : PyDict ℚ
deriving DecidableEq

/-- `BitgetExchange._update_balances`: records the previously known asset
names, replaces both balance tables with fresh ones built from the response
(total = available + locked), and then `del`etes each previously known asset
absent from the response from the fresh tables — a `del` that raises
`KeyError` because the fresh tables never contained those assets. -/
def _update_balances (st : AccountBalances) (response : List BalanceEntry) :
    Except String AccountBalances :=
  let local_asset_names := st.totalBalances.map (·.1)
  let filled : AccountBalances := response.foldl
    (fun acc e =>
      { availableBalances := acc.availableBalances.setValue e.coin e.available
        totalBalances := acc.totalBalances.setValue e.coin (e.available + e.locked) })
    ⟨[], []⟩
  let remote_asset_names := response.map (·.coin)
  let asset_names_to_remove :=
    local_asset_names.filter fun a => !(remote_asset_names.contains a)
  asset_names_to_remove.foldlM
    (fun (acc : AccountBalances) a => do
      let av ← acc.availableBalances.delete a
      let tot ← acc.totalBalances.delete a
      pure ⟨av, tot⟩)
    filled

/- ---------------------------------------------------------------------
`BitgetExchange._place_cancel` (bitget_exchange.py lines 248-264).
--------------------------------------------------------------------- -/

/-- The parameters `_place_cancel` sends to the cancel endpoint.  `orderId`
is `tracked_order.exchange_order_id`, which is Python `None` when the venue
id is not yet known (the `order_id` fallback is commented out in the
source). -/
structure CancelParams where
  symbol : String
  orderId : Option String
deriving DecidableEq

/-- The request-parameter construction of `BitgetExchange._place_cancel`.
The unused `order_id` argument mirrors the method's parameter that the
source no longer reads. -/
def _place_cancel_params (symbol : String) (order_id : String)
    (tracked_order : InFlightOrderM) : CancelParams :=
  { symbol := symbol, orderId := tracked_order.exchangeOrderId }

/-- The result computation of `BitgetExchange._place_cancel` on the venue's
cancel response (a dict whose string-valued fields are embedded; a `msg`
field of a non-string type is embedded as absent): `True` iff
`cancel_result.get("msg") == "success"`.  Wrapped in `Except` to record
that no operation on this path can raise. -/
def _place_cancel_result (cancel_result : PyDict String) : Except String Bool :=
  if cancel_result.getValue? "msg" = some "success" then .ok true else .ok false

/- ---------------------------------------------------------------------
`BitgetExchange._place_order` error handling (bitget_exchange.py 228-246).
--------------------------------------------------------------------- -/

/-- The transient-overload test in `_place_order`'s `IOError` handler:
the description contains both `"status is 503"` and the venue's overload
message. -/
def is_server_overloaded (error_description : String) : Bool :=
  containsSubstr "status is 503" error_description &&
  containsSubstr "Unknown error, please check your request or try again later."
    error_description

/-- The `IOError` branch of `BitgetExchange._place_order`: on a transient
overload signal it returns the sentinel id `"UNKNOWN"` with
`self._time_synchronizer.time()` (passed in as `sync_time`); any other
`IOError` is re-raised. -/
def _place_order_io_error (error_description : String) (sync_time : ℚ) :
    Except String (String × ℚ) :=
  if is_server_overloaded error_description then .ok ("UNKNOWN", sync_time)
  else .error error_description

/- ---------------------------------------------------------------------
`BitgetExchange._parse_websocket_trade_update` (lines 358-395) and
`_process_trade_event_message` (lines 342-356).
--------------------------------------------------------------------- -/

/-- The fields of a websocket trade message the parser reads.  `ordId` is
`none` when the payload carries a JSON null. -/
structure WsTradeMsg where
  clOrdId : String
  ordId : Option String
  fillFeeCcy : String
  fillFee : ℚ
  side : String
  fillPx : Option ℚ
  px : ℚ
  cTimeMs : Nat
  fillSz : ℚ
deriving DecidableEq

/-- The canonical `TradeUpdate` record the connector builds. -/
structure TradeUpdateM where
  tradeId : String
  clientOrderId : String
  exchangeOrderId : String
  tradingPair : String
  fillTimestamp : ℚ
  fillPrice : ℚ
  fillBaseAmount : ℚ
  fillQuoteAmount : ℚ
  feePositionAction : PositionAction
  feePercentToken : String
  feeFlatFees : List TokenAmountM
deriving DecidableEq

/-- `BitgetExchange._parse_websocket_trade_update`: builds a `TradeUpdate`
whose `trade_id` (and `exchange_order_id`) is the message's `ordId`;
returns Python `None` (here `none`) when `ordId` is null. -/
def _parse_websocket_trade_update (trade_msg : WsTradeMsg)
    (tracked_order : InFlightOrderM) : Option TradeUpdateM :=
  match trade_msg.ordId with
  | none => none
  | some trade_id =>
    let position_action :=
      if (tracked_order.tradeType = .BUY ∧ trade_msg.side = "buy")
          ∨ (tracked_order.tradeType = .SELL ∧ trade_msg.side = "sell")
      then PositionAction.OPEN else PositionAction.CLOSE
    let flat_fees : List TokenAmountM :=
      if trade_msg.fillFee = 0 then [] else [⟨trade_msg.fillFee, trade_msg.fillFeeCcy⟩]
    let exec_price := match trade_msg.fillPx with
      | some p => p
      | none => trade_msg.px
    let exec_time : ℚ := (trade_msg.cTimeMs : ℚ) / 1000
    some
      { tradeId := trade_id
        clientOrderId := tracked_order.clientOrderId
        exchangeOrderId := trade_id
        tradingPair := tracked_order.tradingPair
        fillTimestamp := exec_time
        fillPrice := exec_price
        fillBaseAmount := trade_msg.fillSz
        fillQuoteAmount := exec_price * trade_msg.fillSz
        feePositionAction := position_action
        feePercentToken := trade_msg.fillFeeCcy
        feeFlatFees := flat_fees }

/- ---------------------------------------------------------------------
`BitgetExchange._update_order_fills_from_trades` (lines 484-524): the
request-building part of one polling pass.
--------------------------------------------------------------------- -/

/-- The `params` dict of a trade-history request. -/
structure FillsRequestParams where
  symbol : String
  startTime : Option Int
deriving DecidableEq

/-- The trade-history requests one pass of
`_update_order_fills_from_trades` issues once the poll-tick gate has fired.
The `for` loop only rebinds `params`, so after it `params` holds the last
trading pair's dict (with no pairs, the later `params` reference raises
`NameError`); the single `tasks.append` sits inside the
`_last_poll_timestamp > 0` guard. -/
def _update_order_fills_requests (trading_pairs : List String)
    (last_poll_timestamp : ℚ) (query_time : Int) :
    Except String (List FillsRequestParams) :=
  match trading_pairs.getLast? with
  | none => .error "NameError: params"
  | some tp =>
    let params : FillsRequestParams :=
      { symbol := format_symbol (pyReplace tp "-" ""), startTime := none }
    if 0 < last_poll_timestamp then
      .ok [{ params with startTime := some query_time }]
    else
      .ok []

/- ---------------------------------------------------------------------
`BitgetExchange._format_trading_rules` (lines 266-299).
--------------------------------------------------------------------- -/

/-- One record of the exchange-info `data` list, with the fields
`_format_trading_rules` reads.  `none` models a field that is absent or
malformed (each such field makes the `try` block raise); scales are `Nat`s
since a well-formed scale digit-string always yields `Decimal("1e-n")`. -/
structure ExchangeInfoRecord where
  symbol : Option String
  status : String
  minTradeAmount : Option String
  priceScale : Option Nat
  quantityScale : Option Nat
  minTradeUSDT : Option String
deriving DecidableEq

/-- Modelled from the spec: `bitget_utils.is_exchange_information_valid` is
imported from `bitget_utils.py`, which is not under `src/`; the spec says
instrument listings are filtered to active instruments ("filtering out
inactive/delisted instruments before insertion"), so validity is the
record's status being online. -/
def is_exchange_information_valid (r : ExchangeInfoRecord) : Bool :=
  r.status == "online"

/-- Python `Decimal(s)` on the plain decimal strings the venue sends:
optional sign, digits, optional fractional part (exponent forms, which the
venue's numeric fields do not use, are out of the embedded subset and map
to `none`). -/
def parseDecimal (s : String) : Option ℚ :=
  let (neg, body) : Bool × List Char :=
    match s.data with
    | '-' :: r => (true, r)
    | '+' :: r => (false, r)
    | r => (false, r)
  let intPart := body.takeWhile (· ≠ '.')
  let rest := body.dropWhile (· ≠ '.')
  let fracPart : Option (List Char) :=
    match rest with
    | [] => some []
    | '.' :: f => if f.contains '.' then none else some f
    | _ => none
  match fracPart with
  | none => none
  | some frac =>
    if intPart.all Char.isDigit ∧ frac.all Char.isDigit
        ∧ (intPart ≠ [] ∨ frac ≠ []) then
      let natVal (ds : List Char) : Nat := ds.foldl (fun a c => a * 10 + (c.toNat - 48)) 0
      let mag : ℚ := (natVal intPart : ℚ) + (natVal frac : ℚ) / 10 ^ frac.length
      some (if neg then -mag else mag)
    else none

/-- A `TradingRule` as `_format_trading_rules` constructs it. -/
structure TradingRuleM where
  tradingPair : String
  minOrderSize : ℚ
  minPriceIncrement : ℚ
  minBaseAmountIncrement : ℚ
  minNotionalSize : ℚ
deriving DecidableEq

/-- The `try` body of `_format_trading_rules` for one record: the symbol→pair
lookup (`symbol_map`, the connector's symbol mapping), then
`Decimal(minTradeAmount)`, `Decimal("1e-priceScale")`,
`Decimal("1e-quantityScale")` and `Decimal(minTradeUSDT)`; any failure makes
the whole record parse to `none` (the `except` path, which skips it). -/
def parse_trading_rule (symbol_map : String → Option String)
    (r : ExchangeInfoRecord) : Option TradingRuleM :=
  r.symbol.bind fun sym =>
  (symbol_map sym).bind fun trading_pair =>
  r.minTradeAmount.bind fun mta =>
  (parseDecimal mta).bind fun min_order_size =>
  r.priceScale.bind fun ps =>
  r.quantityScale.bind fun qs =>
  r.minTradeUSDT.bind fun usdt =>
  (parseDecimal usdt).map fun min_notional =>
    { tradingPair := trading_pair
      minOrderSize := min_order_size
      minPriceIncrement := 1 / 10 ^ ps
      minBaseAmountIncrement := 1 / 10 ^ qs
      minNotionalSize := min_notional }

/-- `BitgetExchange._format_trading_rules`: filter the records through
`is_exchange_information_valid`, parse each surviving record, and keep the
successes — a parse failure only drops its own record. -/
def _format_trading_rules (symbol_map : String → Option String)
    (records : List ExchangeInfoRecord) : List TradingRuleM :=
  (records.filter is_exchange_information_valid).filterMap
    (parse_trading_rule symbol_map)

/- ---------------------------------------------------------------------
Spec-side definitions (for refinement comparison against the code).
--------------------------------------------------------------------- -/

/-- The request path as claim C1 words it: the request path, with `?` and
the urlencoded query string appended when the method is GET and params are
present. -/
def spec_request_path (request : RESTRequest) : String :=
  if request.method = .GET ∧ request.params ≠ [] then
    request.throttlerLimitId ++ "?" ++ urlencode request.params
  else request.throttlerLimitId

/-- The HMAC-signed canonical string as claim C1 states it: the
millisecond-epoch timestamp string, then the uppercase HTTP method, then
the request path, then the body string — where the body contributes the
empty string whenever it is absent, null, or the literal `"none"`. -/
def spec_canonical_string (timestamp_ms : Nat) (request : RESTRequest) : String :=
  let body := match request.data with
    | none => ""
    | some s => if s = "null" ∨ s = "none" then "" else s
  toString timestamp_ms ++ pyUpper request.method.value ++ spec_request_path request ++ body

/-- The canonical string of claim C1 as amended: the body contributes the
empty string whenever it is absent, the literal `"null"`, or the literal
`"None"` (the `str()` rendering of Python `None`) — not the lowercase
`"none"`. -/
def spec_canonical_string_amended (timestamp_ms : Nat) (request : RESTRequest) : String :=
  let body := match request.data with
    | none => ""
    | some s => if s = "None" ∨ s = "null" then "" else s
  toString timestamp_ms ++ pyUpper request.method.value ++ spec_request_path request ++ body

end Bitget

/-- Validation of the crypto embedding against an independently computed
HMAC-SHA256/base64 test vector for the spec's fixed signing inputs. -/
theorem b64HmacSha256_reference_vector :
    Crypto.b64HmacSha256 "s3cr3t" "1700000000000GET/api/spot/v1/account" =
      "ynh+VcVFFOWn3TX0KM4nrpepsDVvJR3wnwGF5WTX9FM=" := by
  decide

/-- C4: evaluation of `_update_balances` at a failing input.  With BTC
previously known and a snapshot containing only ETH, the update raises
`KeyError` (the removal loop deletes from the freshly rebuilt tables, which
never contained BTC) instead of completing; with a snapshot that still
contains BTC it completes, wholesale-replacing both tables with
total = available + locked. -/
theorem c4_balance_update_raises_on_absent_asset :
    Bitget._update_balances ⟨[("BTC", (2 : ℚ))], [("BTC", (2 : ℚ))]⟩
        [⟨"ETH", 5, 1⟩]
      = .error "KeyError: BTC"
    ∧ Bitget._update_balances ⟨[("BTC", (2 : ℚ))], [("BTC", (2 : ℚ))]⟩
        [⟨"BTC", 3, 1⟩, ⟨"ETH", 5, 1⟩]
      = .ok ⟨[("BTC", 3), ("ETH", 5)], [("BTC", (3 : ℚ) + 1), ("ETH", (5 : ℚ) + 1)]⟩ := by
  constructor
  · rfl
  · rfl

/-- C5: `_place_cancel`'s result is `True` exactly when the response's
`msg` field is the string `"success"`, and any response without that
marker — including an empty one — yields `False` with no exception
(the computation never reaches the `Except` error case). -/
theorem c5_place_cancel_success_marker :
    ∀ cancel_result : Bitget.PyDict String,
      (Bitget._place_cancel_result cancel_result = .ok true ↔
        cancel_result.getValue? "msg" = some "success")
      ∧ (cancel_result.getValue? "msg" ≠ some "success" →
        Bitget._place_cancel_result cancel_result = .ok false) := by
  intro d
  by_cases h : d.getValue? "msg" = some "success" <;>
    simp [Bitget._place_cancel_result, h]

/-- Witness for C5: a response with the success marker cancels
successfully; an empty response reports failure without raising. -/
theorem c5_place_cancel_success_marker_witness :
    Bitget._place_cancel_result [("msg", "success")] = .ok true
    ∧ Bitget._place_cancel_result [] = .ok false :=
  ⟨(c5_place_cancel_success_marker [("msg", "success")]).1.mpr (by decide),
   (c5_place_cancel_success_marker []).2 (by decide)⟩

/-- C6 counterexample: for a tracked order with no venue order id and
client id `"HBOT-1"`, the cancel request's `orderId` is Python `None` —
not the client order id the claim's fallback requires (the `order_id`
fallback is commented out in the source). -/
theorem c6_cancel_id_no_fallback_counterexample :
    (Bitget._place_cancel_params "ETHUSDT_SPBL" "HBOT-1"
        ⟨"HBOT-1", none, "ETH-USDT", .SELL⟩).orderId = none
    ∧ (none : Option String) ≠ some "HBOT-1" := by
  exact ⟨rfl, by decide⟩

/-- C6 as amended: the order identifier sent to the venue is always the
tracked order's exchange order id — `None` when no venue id is yet known,
with no fallback to the client order id. -/
theorem c6_cancel_uses_exchange_order_id :
    ∀ (symbol order_id : String) (tracked_order : Bitget.InFlightOrderM),
      (Bitget._place_cancel_params symbol order_id tracked_order).orderId
        = tracked_order.exchangeOrderId := by
  intro s oid o
  rfl

/-- C7: in `_place_order`'s `IOError` handler, a description carrying both
the 503 status and the venue's overload message yields the sentinel
`("UNKNOWN", sync_time)` instead of propagating; any other description is
re-raised. -/
theorem c7_place_order_overload_handling :
    ∀ (error_description : String) (sync_time : ℚ),
      (Bitget.is_server_overloaded error_description = true →
        Bitget._place_order_io_error error_description sync_time
          = .ok ("UNKNOWN", sync_time))
      ∧ (Bitget.is_server_overloaded error_description = false →
        Bitget._place_order_io_error error_description sync_time
          = .error error_description) := by
  intro d t
  constructor <;> intro h <;> simp [Bitget._place_order_io_error, h]

/-- Witness for C7: a 503-with-overload-message error returns the sentinel;
a different IOError is re-raised. -/
theorem c7_place_order_overload_handling_witness :
    Bitget._place_order_io_error
        "Error executing request POST https://api.bitget.com/api/spot/v1/trade/orders. HTTP status is 503. Error: Unknown error, please check your request or try again later."
        7
      = .ok ("UNKNOWN", 7)
    ∧ Bitget._place_order_io_error "HTTP status is 400. Error: Invalid symbol." 7
      = .error "HTTP status is 400. Error: Invalid symbol." :=
  ⟨(c7_place_order_overload_handling _ 7).1 (by decide),
   (c7_place_order_overload_handling _ 7).2 (by decide)⟩

/-- C9: every `TradeUpdate` built from a websocket trade message carries the
message's `ordId` as its `trade_id` (and as its `exchange_order_id`);
consequently any two stream messages with the same `ordId` — e.g. two fills
of the same order — produce trade updates with the same `trade_id`. -/
theorem c9_ws_trade_id_is_order_id :
    ∀ (m : Bitget.WsTradeMsg) (o : Bitget.InFlightOrderM) (t : Bitget.TradeUpdateM),
      Bitget._parse_websocket_trade_update m o = some t →
      m.ordId = some t.tradeId
      ∧ t.exchangeOrderId = t.tradeId
      ∧ ∀ (m2 : Bitget.WsTradeMsg) (t2 : Bitget.TradeUpdateM),
          Bitget._parse_websocket_trade_update m2 o = some t2 →
          m2.ordId = m.ordId → t2.tradeId = t.tradeId := by
  intro m o t h
  cases hm : m.ordId with
  | none =>
    rw [Bitget._parse_websocket_trade_update, hm] at h
    cases h
  | some tid =>
    rw [Bitget._parse_websocket_trade_update, hm] at h
    injection h with h
    subst h
    refine ⟨rfl, rfl, ?_⟩
    intro m2 t2 h2 heq
    rw [Bitget._parse_websocket_trade_update, heq] at h2
    injection h2 with h2
    subst h2
    rfl

/-- Witness for C9: two distinct fills (different sizes and times) of the
order with venue id `"777"` both yield trade updates with trade id
`"777"`. -/
theorem c9_ws_trade_id_is_order_id_witness :
    Bitget._parse_websocket_trade_update
        ⟨"HBOT-9", some "777", "USDT", 0, "buy", some 100, 99, 1700000000000, 2⟩
        ⟨"HBOT-9", some "777", "BTC-USDT", .BUY⟩
      = some ⟨"777", "HBOT-9", "777", "BTC-USDT", ((1700000000000 : Nat) : ℚ) / 1000,
          100, 2, (100 : ℚ) * 2, .OPEN, "USDT", []⟩
    ∧ Bitget._parse_websocket_trade_update
        ⟨"HBOT-9", some "777", "USDT", 0, "buy", some 100, 99, 1700000000500, 3⟩
        ⟨"HBOT-9", some "777", "BTC-USDT", .BUY⟩
      = some ⟨"777", "HBOT-9", "777", "BTC-USDT", ((1700000000500 : Nat) : ℚ) / 1000,
          100, 3, (100 : ℚ) * 3, .OPEN, "USDT", []⟩
    ∧ Bitget.TradeUpdateM.tradeId
        ⟨"777", "HBOT-9", "777", "BTC-USDT", ((1700000000500 : Nat) : ℚ) / 1000,
          100, 3, (100 : ℚ) * 3, .OPEN, "USDT", []⟩
      = Bitget.TradeUpdateM.tradeId
        ⟨"777", "HBOT-9", "777", "BTC-USDT", ((1700000000000 : Nat) : ℚ) / 1000,
          100, 2, (100 : ℚ) * 2, .OPEN, "USDT", []⟩ := by
  refine ⟨rfl, rfl, ?_⟩
  exact (c9_ws_trade_id_is_order_id
      ⟨"HBOT-9", some "777", "USDT", 0, "buy", some 100, 99, 1700000000000, 2⟩
      ⟨"HBOT-9", some "777", "BTC-USDT", .BUY⟩
      ⟨"777", "HBOT-9", "777", "BTC-USDT", ((1700000000000 : Nat) : ℚ) / 1000,
        100, 2, (100 : ℚ) * 2, .OPEN, "USDT", []⟩
      rfl).2.2
    ⟨"HBOT-9", some "777", "USDT", 0, "buy", some 100, 99, 1700000000500, 3⟩
    ⟨"777", "HBOT-9", "777", "BTC-USDT", ((1700000000500 : Nat) : ℚ) / 1000,
      100, 3, (100 : ℚ) * 3, .OPEN, "USDT", []⟩
    rfl rfl

/-- C10: one polling pass of `_update_order_fills_from_trades` issues at
most one trade-history request whatever the number of configured pairs;
when the last poll timestamp is positive the single request's symbol is
built from the last trading pair of the list, and when it is not positive
no request is issued. -/
theorem c10_single_fills_request :
    ∀ (trading_pairs : List String) (last_poll : ℚ) (query_time : Int),
      (∀ reqs, Bitget._update_order_fills_requests trading_pairs last_poll query_time
          = .ok reqs → reqs.length ≤ 1)
      ∧ (∀ p, trading_pairs.getLast? = some p →
          (0 < last_poll →
            Bitget._update_order_fills_requests trading_pairs last_poll query_time
              = .ok [⟨Bitget.format_symbol (Bitget.pyReplace p "-" ""), some query_time⟩])
          ∧ (¬ 0 < last_poll →
            Bitget._update_order_fills_requests trading_pairs last_poll query_time
              = .ok [])) := by
  intro pairs lp qt
  constructor
  · intro reqs h
    unfold Bitget._update_order_fills_requests at h
    cases hl : pairs.getLast? with
    | none => rw [hl] at h; cases h
    | some p =>
      rw [hl] at h
      dsimp only at h
      by_cases hlp : 0 < lp
      · rw [if_pos hlp] at h; injection h with h; subst h; simp
      · rw [if_neg hlp] at h; injection h with h; subst h; simp
  · intro p hp
    unfold Bitget._update_order_fills_requests
    rw [hp]
    refine ⟨fun hlp => ?_, fun hlp => ?_⟩
    · dsimp only
      rw [if_pos hlp]
    · dsimp only
      rw [if_neg hlp]

/-- Witness for C10: with two configured pairs and a positive last poll
timestamp, exactly one request is issued and its symbol comes from the
last pair (`ETH-USDT` → `ETHUSDT`); with a zero last poll timestamp no
request is issued. -/
theorem c10_single_fills_request_witness :
    Bitget._update_order_fills_requests ["BTC-USDT", "ETH-USDT"] 5 1700
      = .ok [⟨"ETHUSDT", some 1700⟩]
    ∧ Bitget._update_order_fills_requests ["BTC-USDT", "ETH-USDT"] 0 1700
      = .ok [] :=
  ⟨((c10_single_fills_request ["BTC-USDT", "ETH-USDT"] 5 1700).2 "ETH-USDT" rfl).1
      (by norm_num),
   ((c10_single_fills_request ["BTC-USDT", "ETH-USDT"] 0 1700).2 "ETH-USDT" rfl).2
      (by norm_num)⟩

/-- C1 counterexample: for a request whose body renders as the lowercase
literal `"none"`, the signer keeps the body in the canonical string
(`_pre_hash` blanks only `"None"` and `"null"`), so the signed string is
not the one the claim's body rule produces. -/
theorem c1_body_none_literal_counterexample :
    Bitget.BitgetAuth.restCanonicalString ⟨1700000000000, 0⟩
        ⟨.POST, "/api/spot/v1/trade/orders", [], some "none"⟩
      = "1700000000000POST/api/spot/v1/trade/ordersnone"
    ∧ Bitget.spec_canonical_string 1700000000000
        ⟨.POST, "/api/spot/v1/trade/orders", [], some "none"⟩
      = "1700000000000POST/api/spot/v1/trade/orders"
    ∧ Bitget.BitgetAuth.restCanonicalString ⟨1700000000000, 0⟩
        ⟨.POST, "/api/spot/v1/trade/orders", [], some "none"⟩
      ≠ Bitget.spec_canonical_string 1700000000000
        ⟨.POST, "/api/spot/v1/trade/orders", [], some "none"⟩ := by
  refine ⟨by decide, by decide, by decide⟩

/-- C1 as amended: for every REST request, the HMAC-signed string is the
millisecond timestamp string, the uppercase method, the request path (with
`?` and the urlencoded query appended for GET with params), and the body —
where the body contributes the empty string whenever it is absent, the
literal `"null"`, or the literal `"None"` (the `str()` rendering of Python
`None`), rather than the claim's lowercase `"none"`. -/
theorem c1_rest_canonical_string :
    ∀ (clocks : Bitget.AuthClocks) (request : Bitget.RESTRequest),
      Bitget.BitgetAuth.restCanonicalString clocks request
        = Bitget.spec_canonical_string_amended clocks.localWallClockMs request := by
  intro c r
  rcases r with ⟨m, lid, ps, d⟩
  cases d with
  | none => rfl
  | some s => rfl

/-- C2: evaluation of the signer at a failing input.  With the local wall
clock at 1700000000123 ms, the REST ACCESS-TIMESTAMP header is
`"1700000000123"` no matter what the injected `TimeSynchronizer` reads
(here 42 vs 987654) — `rest_authenticate` takes its timestamp from
`time.time()`, not from the injected clock — while the WS login frame does
use the injected clock. -/
theorem c2_rest_timestamp_from_wall_clock :
    (Bitget.BitgetAuth.rest_authenticate ⟨"key", "s3cr3t", "pass"⟩ ⟨1700000000123, 42⟩
        ⟨.GET, "/api/spot/v1/account", [], none⟩).accessTimestamp = "1700000000123"
    ∧ (Bitget.BitgetAuth.rest_authenticate ⟨"key", "s3cr3t", "pass"⟩ ⟨1700000000123, 987654⟩
        ⟨.GET, "/api/spot/v1/account", [], none⟩).accessTimestamp = "1700000000123"
    ∧ (Bitget.BitgetAuth.get_ws_auth_payload ⟨"key", "s3cr3t", "pass"⟩
        ⟨1700000000123, 987654⟩).map Bitget.BitgetAuth.WsAuthEntry.timestamp
      = ["987654"]
    ∧ ("1700000000123" : String) ≠ "987654" := by
  refine ⟨rfl, rfl, rfl, by decide⟩

/-- C3 counterexample: changing exactly one input — the method, from
`"GET"` to the different string `"get"` — does not change the signature,
because `_pre_hash` uppercases the method before signing. -/
theorem c3_method_case_counterexample :
    Bitget.BitgetAuth._sign
        (Bitget.BitgetAuth._pre_hash "1700000000000" "get" "/api/spot/v1/account" "")
        "s3cr3t"
      = Bitget.BitgetAuth._sign
        (Bitget.BitgetAuth._pre_hash "1700000000000" "GET" "/api/spot/v1/account" "")
        "s3cr3t"
    ∧ ("get" : String) ≠ "GET" := by
  exact ⟨rfl, by decide⟩

/-- C3 as amended: the signature at the fixed inputs
(timestamp `"1700000000000"`, method `"GET"`, path
`"/api/spot/v1/account"`, secret `"s3cr3t"`, empty body) is deterministic
— two evaluations agree — and changing exactly one input to a concrete
different value (timestamp `"1700000000001"`, method `"POST"`, path
`"/api/spot/v1/orders"`, or secret `"s3cr3u"`) changes the signature;
only a letter-case-only change of the method leaves it unchanged. -/
theorem c3_signature_determinism :
    (Bitget.BitgetAuth._sign
        (Bitget.BitgetAuth._pre_hash "1700000000000" "GET" "/api/spot/v1/account" "")
        "s3cr3t"
      = Bitget.BitgetAuth._sign
        (Bitget.BitgetAuth._pre_hash "1700000000000" "GET" "/api/spot/v1/account" "")
        "s3cr3t")
    ∧ Bitget.BitgetAuth._sign
        (Bitget.BitgetAuth._pre_hash "1700000000001" "GET" "/api/spot/v1/account" "")
        "s3cr3t"
      ≠ Bitget.BitgetAuth._sign
        (Bitget.BitgetAuth._pre_hash "1700000000000" "GET" "/api/spot/v1/account" "")
        "s3cr3t"
    ∧ Bitget.BitgetAuth._sign
        (Bitget.BitgetAuth._pre_hash "1700000000000" "POST" "/api/spot/v1/account" "")
        "s3cr3t"
      ≠ Bitget.BitgetAuth._sign
        (Bitget.BitgetAuth._pre_hash "1700000000000" "GET" "/api/spot/v1/account" "")
        "s3cr3t"
    ∧ Bitget.BitgetAuth._sign
        (Bitget.BitgetAuth._pre_hash "1700000000000" "GET" "/api/spot/v1/orders" "")
        "s3cr3t"
      ≠ Bitget.BitgetAuth._sign
        (Bitget.BitgetAuth._pre_hash "1700000000000" "GET" "/api/spot/v1/account" "")
        "s3cr3t"
    ∧ Bitget.BitgetAuth._sign
        (Bitget.BitgetAuth._pre_hash "1700000000000" "GET" "/api/spot/v1/account" "")
        "s3cr3u"
      ≠ Bitget.BitgetAuth._sign
        (Bitget.BitgetAuth._pre_hash "1700000000000" "GET" "/api/spot/v1/account" "")
        "s3cr3t" := by
  refine ⟨rfl, by decide, by decide, by decide, by decide⟩

/-- C8: every active (validity-filtered) record that parses successfully
contributes its rule to the batch result — regardless of other records'
parse failures — and that rule's fields are the venue minimum trade
amount, `10^(-priceScale)`, `10^(-quantityScale)`, and the venue minimum
trade value. -/
theorem c8_trading_rules_fields :
    ∀ (symbol_map : String → Option String) (records : List Bitget.ExchangeInfoRecord)
      (r : Bitget.ExchangeInfoRecord) (tr : Bitget.TradingRuleM),
      r ∈ records →
      Bitget.is_exchange_information_valid r = true →
      Bitget.parse_trading_rule symbol_map r = some tr →
      tr ∈ Bitget._format_trading_rules symbol_map records
      ∧ (∀ s q, r.minTradeAmount = some s → Bitget.parseDecimal s = some q →
          tr.minOrderSize = q)
      ∧ (∀ n, r.priceScale = some n → tr.minPriceIncrement = 1 / 10 ^ n)
      ∧ (∀ n, r.quantityScale = some n → tr.minBaseAmountIncrement = 1 / 10 ^ n)
      ∧ (∀ s q, r.minTradeUSDT = some s → Bitget.parseDecimal s = some q →
          tr.minNotionalSize = q) := by
  intro sm records r tr hmem hvalid hparse
  have hmemres : tr ∈ Bitget._format_trading_rules sm records :=
    List.mem_filterMap.mpr ⟨r, List.mem_filter.mpr ⟨hmem, hvalid⟩, hparse⟩
  simp only [Bitget.parse_trading_rule, Option.bind_eq_some, Option.map_eq_some']
    at hparse
  obtain ⟨sym, hsym, tp, htp, mta, hmta, mos, hmos, ps, hps, qs, hqs, usdt, husdt,
    mn, hmn, htr⟩ := hparse
  subst htr
  refine ⟨hmemres, ?_, ?_, ?_, ?_⟩
  · intro s q hs hq
    rw [hmta] at hs
    injection hs with hs
    subst hs
    rw [hmos] at hq
    exact Option.some.inj hq
  · intro n hn
    rw [hps] at hn
    injection hn with hn
    subst hn
    rfl
  · intro n hn
    rw [hqs] at hn
    injection hn with hn
    subst hn
    rfl
  · intro s q hs hq
    rw [husdt] at hs
    injection hs with hs
    subst hs
    rw [hmn] at hq
    exact Option.some.inj hq

/-- Witness for C8: in a batch of two online records where the first lacks
`minTradeAmount` (its parse fails and it is skipped), the second still
yields its rule, with price increment `10^(-2)` from `priceScale = 2`. -/
theorem c8_trading_rules_fields_witness :
    Bitget.is_exchange_information_valid
        ⟨some "ETHUSDT_SPBL", "online", some "0.001", some 2, some 3, some "5"⟩ = true
    ∧ Bitget.parse_trading_rule
        (fun s => if s = "ETHUSDT_SPBL" then some "ETH-USDT" else none)
        ⟨some "ETHUSDT_SPBL", "online", some "0.001", some 2, some 3, some "5"⟩
      = some ⟨"ETH-USDT", ((0 : Nat) : ℚ) + ((1 : Nat) : ℚ) / 10 ^ (3 : Nat),
          1 / 10 ^ (2 : Nat), 1 / 10 ^ (3 : Nat),
          ((5 : Nat) : ℚ) + ((0 : Nat) : ℚ) / 10 ^ (0 : Nat)⟩
    ∧ (⟨"ETH-USDT", ((0 : Nat) : ℚ) + ((1 : Nat) : ℚ) / 10 ^ (3 : Nat),
          1 / 10 ^ (2 : Nat), 1 / 10 ^ (3 : Nat),
          ((5 : Nat) : ℚ) + ((0 : Nat) : ℚ) / 10 ^ (0 : Nat)⟩ : Bitget.TradingRuleM)
      ∈ Bitget._format_trading_rules
          (fun s => if s = "ETHUSDT_SPBL" then some "ETH-USDT" else none)
          [⟨some "XRPUSDT_SPBL", "online", none, some 4, some 4, some "5"⟩,
           ⟨some "ETHUSDT_SPBL", "online", some "0.001", some 2, some 3, some "5"⟩]
    ∧ Bitget.TradingRuleM.minPriceIncrement
        ⟨"ETH-USDT", ((0 : Nat) : ℚ) + ((1 : Nat) : ℚ) / 10 ^ (3 : Nat),
          1 / 10 ^ (2 : Nat), 1 / 10 ^ (3 : Nat),
          ((5 : Nat) : ℚ) + ((0 : Nat) : ℚ) / 10 ^ (0 : Nat)⟩
      = 1 / 10 ^ (2 : Nat) := by
  have h := c8_trading_rules_fields
    (fun s => if s = "ETHUSDT_SPBL" then some "ETH-USDT" else none)
    [⟨some "XRPUSDT_SPBL", "online", none, some 4, some 4, some "5"⟩,
     ⟨some "ETHUSDT_SPBL", "online", some "0.001", some 2, some 3, some "5"⟩]
    ⟨some "ETHUSDT_SPBL", "online", some "0.001", some 2, some 3, some "5"⟩
    ⟨"ETH-USDT", ((0 : Nat) : ℚ) + ((1 : Nat) : ℚ) / 10 ^ (3 : Nat),
      1 / 10 ^ (2 : Nat), 1 / 10 ^ (3 : Nat),
      ((5 : Nat) : ℚ) + ((0 : Nat) : ℚ) / 10 ^ (0 : Nat)⟩
    (by simp) rfl rfl
  exact ⟨rfl, rfl, h.1, h.2.2.1 2 rfl⟩
